import Mathlib

/-!
Shallow embedding of the Game of Life core in src/main.cpp: the template
class GameOfLife<N, M> with its double-buffered update loop, neighbour
counting in size_t arithmetic, and the raw-copy setGrid.  Grids are
row-major lists of boolean rows; the C++ size_t/int mixed arithmetic is
modelled as Nat with an explicit modulus 2^64.
-/

namespace GameOfLife

/-- Row-major grid of boolean cells: std::array of N rows, each an
std::array of M bool. -/
abbrev Grid := List (List Bool)

/-- Modulus of size_t arithmetic (64-bit unsigned). -/
def sizeTMod : Nat := 2 ^ 64

/-- Read cell (i, j): for in-bounds indices on a well-shaped grid this is
exactly the array access current_grid[i][j]. -/
def cellAt (g : Grid) (i j : Nat) : Bool := (g.getD i []).getD j false

/-- The C++ expression `i + offset` where `i` is size_t and `offset` is int:
the int operand converts to size_t and the addition wraps modulo 2^64. -/
def addSizeT (i : Nat) (d : Int) : Nat :=
  (((i : Int) + d) % (sizeTMod : Int)).toNat

/-- The eight Moore-neighbourhood offsets, in the order of the source's
NeighbourOffsets member. -/
def NeighbourOffsets : List (Int × Int) :=
  [(-1, -1), (-1, 0), (-1, 1), (0, -1), (0, 1), (1, -1), (1, 0), (1, 1)]

/-- GameOfLife::numberOfAliveNeighbours: loop over the eight offsets,
compute x = i + di and y = j + dj in size_t arithmetic, and count the cell
when `x >= 0 && y >= 0 && x < N && y < M` holds and current_grid[x][y] is
alive (the two `>= 0` tests are on unsigned values, hence always true). -/
def numberOfAliveNeighbours (N M : Nat) (g : Grid) (i j : Nat) : Nat :=
  NeighbourOffsets.foldl
    (fun alive_neighbours off =>
      let x := addSizeT i off.1
      let y := addSizeT j off.2
      if 0 ≤ x ∧ 0 ≤ y ∧ x < N ∧ y < M then
        (if cellAt g x y then alive_neighbours + 1 else alive_neighbours)
      else alive_neighbours)
    0

/-- GameOfLife::evolveCell: a live cell survives unless its neighbour count
is below 2 or above 3; a dead cell is born on exactly 3. -/
def evolveCell (N M : Nat) (g : Grid) (i j : Nat) : Bool :=
  let current_state := cellAt g i j
  let neighbours := numberOfAliveNeighbours N M g i j
  if current_state then !(decide (neighbours < 2) || decide (neighbours > 3))
  else neighbours == 3

/-- The state of a GameOfLife<N, M> object: the two member grids. -/
structure State (N M : Nat) where
  current_grid : Grid
  future_grid : Grid
deriving DecidableEq

/-- Write value v into cell (i, j) of a grid: future_grid[i][j] = v. -/
def setCell (g : Grid) (i j : Nat) (v : Bool) : Grid :=
  g.set i ((g.getD i []).set j v)

/-- The double loop of GameOfLife::update: for each i < N, j < M write
evolveCell(i, j) (read from the current grid) into the future grid. -/
def writeFuture (N M : Nat) (cur : Grid) (fut : Grid) : Grid :=
  (List.range N).foldl
    (fun f i =>
      (List.range M).foldl
        (fun f j => setCell f i j (evolveCell N M cur i j)) f)
    fut

/-- GameOfLife::update: run the double loop filling future_grid from
current_grid, then assign current_grid = future_grid. -/
def update {N M : Nat} (s : State N M) : State N M :=
  let fut := writeFuture N M s.current_grid s.future_grid
  { current_grid := fut, future_grid := fut }

/-- GameOfLife::getGrid: the current grid. -/
def getGrid {N M : Nat} (s : State N M) : Grid := s.current_grid

/-- GameOfLife::setGrid at the memory level:
`std::copy(&g[0][0], &g[0][0] + N * M, &current_grid[0][0])` copies the
first N*M booleans of the supplied pattern's contiguous row-major storage
into the current grid.  The future grid member is untouched. -/
def setGridRaw {N M : Nat} (s : State N M) (p : List Bool) : State N M :=
  { current_grid :=
      (List.range N).map fun i =>
        (List.range M).map fun j => p.getD (i * M + j) false,
    future_grid := s.future_grid }

/-- GameOfLife::setGrid applied to an argument of the parameter type
Grid (an N x M array), whose contiguous storage is the row-major
flattening of its rows. -/
def setGrid {N M : Nat} (s : State N M) (g : Grid) : State N M :=
  setGridRaw s g.flatten

/-- A default-constructed GameOfLife<N, M>: both member grids are
value-initialized, i.e. every cell false. -/
def init (N M : Nat) : State N M :=
  { current_grid := (List.range N).map fun _ => (List.range M).map fun _ => false,
    future_grid := (List.range N).map fun _ => (List.range M).map fun _ => false }

/-- A grid built from a cell function, used to state what the loops
compute. -/
def mkGrid (N M : Nat) (f : Nat → Nat → Bool) : Grid :=
  (List.range N).map fun i => (List.range M).map fun j => f i j

/-- The all-dead grid. -/
def zeroGrid (N M : Nat) : Grid := mkGrid N M fun _ _ => false

/-- Shape invariant: N rows, each of length M. -/
def shaped (N M : Nat) (g : Grid) : Prop :=
  g.length = N ∧ ∀ r ∈ g, r.length = M

instance (N M : Nat) (g : Grid) : Decidable (shaped N M g) := by
  unfold shaped; infer_instance

/-- Spec-side live-neighbour count, following the spec's words: among the
eight Moore offsets, a neighbour position (i+di, j+dj) contributes exactly
when it lies within [0, N) x [0, M) and holds a live cell. -/
def liveNeighborCount (N M : Nat) (g : Grid) (i j : Nat) : Nat :=
  NeighbourOffsets.countP fun off =>
    let x : Int := (i : Int) + off.1
    let y : Int := (j : Int) + off.2
    decide (0 ≤ x ∧ x < (N : Int) ∧ 0 ≤ y ∧ y < (M : Int)) &&
      cellAt g x.toNat y.toNat

/-- The next generation as a whole: what the update loop is supposed to
fill the future grid with. -/
def nextGrid (N M : Nat) (g : Grid) : Grid :=
  mkGrid N M fun i j => evolveCell N M g i j

/-- Aggregate initialization of one row of a Grid: the listed values
followed by value-initialized (false) entries up to length M. -/
def padRow (M : Nat) (row : List Bool) : List Bool :=
  row ++ List.replicate (M - row.length) false

/-- Aggregate initialization of a Grid: the listed rows, each padded to
length M, followed by value-initialized all-false rows up to N rows. -/
def padGrid (N M : Nat) (rows : Grid) : Grid :=
  rows.map (padRow M) ++
    List.replicate (N - rows.length) (List.replicate M false)

/-- The glider seed of main(): the GameOfLife<10,10>::Grid aggregate
initialized from four listed rows of three cells each. -/
def glider_layout : Grid :=
  padGrid 10 10
    [[false, true,  false],
     [false, false, true],
     [true,  true,  true],
     [false, false, false]]

/-- A horizontal blinker: exactly three live cells at row r, columns c,
c+1, c+2, on an otherwise dead N x M grid. -/
def blinkerH (N M r c : Nat) : Grid :=
  mkGrid N M fun i j => decide (i = r ∧ (j = c ∨ j = c + 1 ∨ j = c + 2))

/-- A vertical blinker: exactly three live cells at column c+1, rows r-1,
r, r+1, on an otherwise dead N x M grid. -/
def blinkerV (N M r c : Nat) : Grid :=
  mkGrid N M fun i j => decide (j = c + 1 ∧ (i + 1 = r ∨ i = r ∨ i = r + 1))

theorem getD_map_range {α : Type} (n : Nat) (h : Nat → α) (d : α) (i : Nat)
    (hi : i < n) : ((List.range n).map h).getD i d = h i := by
  rw [List.getD_eq_getElem?_getD, List.getElem?_map, List.getElem?_range hi]
  rfl

theorem cellAt_mkGrid (N M : Nat) (f : Nat → Nat → Bool) (i j : Nat)
    (hi : i < N) (hj : j < M) : cellAt (mkGrid N M f) i j = f i j := by
  unfold cellAt mkGrid
  rw [getD_map_range N _ _ i hi, getD_map_range M _ _ j hj]

theorem shaped_mkGrid (N M : Nat) (f : Nat → Nat → Bool) :
    shaped N M (mkGrid N M f) := by
  refine ⟨by simp [mkGrid], ?_⟩
  intro r hr
  simp only [mkGrid, List.mem_map] at hr
  obtain ⟨i, _, rfl⟩ := hr
  simp

theorem shaped_getD (N M : Nat) (g : Grid) (hs : shaped N M g) (a : Nat)
    (ha : a < N) : (g.getD a []).length = M := by
  have hlen : a < g.length := by rw [hs.1]; exact ha
  rw [List.getD_eq_getElem _ _ hlen]
  exact hs.2 _ (List.getElem_mem hlen)

theorem getD_set_eq {α : Type} (l : List α) (n m : Nat) (a d : α) :
    (l.set n a).getD m d = if n = m ∧ n < l.length then a else l.getD m d := by
  rw [List.getD_eq_getElem?_getD, List.getElem?_set]
  by_cases h1 : n = m
  · subst h1
    by_cases h2 : n < l.length
    · simp [h2]
    · have hn : l[n]? = none := List.getElem?_eq_none (Nat.le_of_not_lt h2)
      simp [h2, hn, List.getD_eq_getElem?_getD]
  · simp [h1, List.getD_eq_getElem?_getD]

theorem cellAt_setCell (g : Grid) (i j a b : Nat) (v : Bool) :
    cellAt (setCell g i j v) a b =
      if i = a ∧ i < g.length ∧ j = b ∧ j < (g.getD i []).length then v
      else cellAt g a b := by
  unfold cellAt setCell
  rw [getD_set_eq]
  by_cases h1 : i = a
  · subst h1
    by_cases h2 : i < g.length
    · rw [if_pos ⟨rfl, h2⟩, getD_set_eq]
      by_cases h3 : j = b ∧ j < (g.getD i []).length
      · rw [if_pos h3, if_pos ⟨rfl, h2, h3.1, h3.2⟩]
      · rw [if_neg h3, if_neg (by tauto)]
    · rw [if_neg (by tauto), if_neg (by tauto)]
  · rw [if_neg (by tauto), if_neg (by tauto)]

theorem length_setCell (g : Grid) (i j : Nat) (v : Bool) :
    (setCell g i j v).length = g.length := by
  simp [setCell]

theorem rowlen_setCell (g : Grid) (i j a : Nat) (v : Bool) :
    ((setCell g i j v).getD a []).length = (g.getD a []).length := by
  unfold setCell
  rw [getD_set_eq]
  split_ifs with h
  · obtain ⟨rfl, h2⟩ := h
    rw [List.length_set]
  · rfl

theorem length_rowLoop (i : Nat) (v : Nat → Bool) (m : Nat) (f : Grid) :
    ((List.range m).foldl (fun g j => setCell g i j (v j)) f).length
      = f.length := by
  induction m generalizing f with
  | zero => rfl
  | succ m ih =>
    rw [List.range_succ, List.foldl_append]
    simp only [List.foldl_cons, List.foldl_nil]
    rw [length_setCell, ih]

theorem rowlen_rowLoop (i : Nat) (v : Nat → Bool) (m : Nat) (f : Grid)
    (a : Nat) :
    (((List.range m).foldl (fun g j => setCell g i j (v j)) f).getD a []).length
      = (f.getD a []).length := by
  induction m generalizing f with
  | zero => rfl
  | succ m ih =>
    rw [List.range_succ, List.foldl_append]
    simp only [List.foldl_cons, List.foldl_nil]
    rw [rowlen_setCell, ih]

theorem cellAt_rowLoop (i : Nat) (v : Nat → Bool) (m : Nat) (f : Grid)
    (a b : Nat) :
    cellAt ((List.range m).foldl (fun g j => setCell g i j (v j)) f) a b =
      if i = a ∧ i < f.length ∧ b < m ∧ b < (f.getD i []).length then v b
      else cellAt f a b := by
  induction m generalizing f with
  | zero =>
    simp only [List.range_zero, List.foldl_nil]
    have : ¬ (i = a ∧ i < f.length ∧ b < 0 ∧ b < (f.getD i []).length) := by
      rintro ⟨_, _, h, _⟩; omega
    rw [if_neg this]
  | succ m ih =>
    rw [List.range_succ, List.foldl_append]
    simp only [List.foldl_cons, List.foldl_nil]
    rw [cellAt_setCell, length_rowLoop, rowlen_rowLoop, ih]
    by_cases hmb : m = b
    · subst hmb
      split_ifs <;> first | rfl | omega
    · split_ifs <;> first | rfl | omega

theorem length_gridLoop (N M : Nat) (cur : Grid) (n : Nat) (f : Grid) :
    ((List.range n).foldl
      (fun g i => (List.range M).foldl
        (fun g j => setCell g i j (evolveCell N M cur i j)) g) f).length
      = f.length := by
  induction n generalizing f with
  | zero => rfl
  | succ n ih =>
    rw [List.range_succ, List.foldl_append]
    simp only [List.foldl_cons, List.foldl_nil]
    rw [length_rowLoop, ih]

theorem rowlen_gridLoop (N M : Nat) (cur : Grid) (n : Nat) (f : Grid)
    (a : Nat) :
    (((List.range n).foldl
      (fun g i => (List.range M).foldl
        (fun g j => setCell g i j (evolveCell N M cur i j)) g) f).getD a
        []).length
      = (f.getD a []).length := by
  induction n generalizing f with
  | zero => rfl
  | succ n ih =>
    rw [List.range_succ, List.foldl_append]
    simp only [List.foldl_cons, List.foldl_nil]
    rw [rowlen_rowLoop, ih]

theorem cellAt_gridLoop (N M : Nat) (cur : Grid) (n : Nat) (f : Grid)
    (a b : Nat) :
    cellAt ((List.range n).foldl
      (fun g i => (List.range M).foldl
        (fun g j => setCell g i j (evolveCell N M cur i j)) g) f) a b =
      if a < n ∧ a < f.length ∧ b < M ∧ b < (f.getD a []).length then
        evolveCell N M cur a b
      else cellAt f a b := by
  induction n generalizing f with
  | zero =>
    simp only [List.range_zero, List.foldl_nil]
    have : ¬ (a < 0 ∧ a < f.length ∧ b < M ∧ b < (f.getD a []).length) := by
      rintro ⟨h, _⟩; omega
    rw [if_neg this]
  | succ n ih =>
    rw [List.range_succ, List.foldl_append]
    simp only [List.foldl_cons, List.foldl_nil]
    rw [cellAt_rowLoop, length_gridLoop, rowlen_gridLoop, ih]
    by_cases hna : n = a
    · subst hna
      split_ifs <;> first | rfl | omega
    · split_ifs <;> first | rfl | omega

theorem shaped_writeFuture (N M : Nat) (cur fut : Grid)
    (hs : shaped N M fut) : shaped N M (writeFuture N M cur fut) := by
  have hl : (writeFuture N M cur fut).length = N := by
    unfold writeFuture
    rw [length_gridLoop]
    exact hs.1
  refine ⟨hl, ?_⟩
  intro r hr
  obtain ⟨k, hk, rfl⟩ := List.mem_iff_getElem.mp hr
  have hkN : k < N := by rw [← hl]; exact hk
  calc ((writeFuture N M cur fut)[k]).length
      = ((writeFuture N M cur fut).getD k []).length := by
        rw [List.getD_eq_getElem _ _ hk]
    _ = (fut.getD k []).length := by
        unfold writeFuture
        rw [rowlen_gridLoop]
    _ = M := shaped_getD N M fut hs k hkN

theorem cellAt_writeFuture (N M : Nat) (cur fut : Grid) (hs : shaped N M fut)
    (a b : Nat) (ha : a < N) (hb : b < M) :
    cellAt (writeFuture N M cur fut) a b = evolveCell N M cur a b := by
  unfold writeFuture
  rw [cellAt_gridLoop]
  exact if_pos ⟨ha, by rw [hs.1]; exact ha, hb, by
    rw [shaped_getD N M fut hs a ha]; exact hb⟩

theorem grid_ext (N M : Nat) (g h : Grid) (hg : shaped N M g)
    (hh : shaped N M h)
    (he : ∀ a, a < N → ∀ b, b < M → cellAt g a b = cellAt h a b) : g = h := by
  apply List.ext_getElem (by rw [hg.1, hh.1])
  intro a ha1 ha2
  apply List.ext_getElem
  · rw [hg.2 _ (List.getElem_mem ha1), hh.2 _ (List.getElem_mem ha2)]
  · intro b hb1 hb2
    have haN : a < N := by rw [← hg.1]; exact ha1
    have hbM : b < M := by
      have hr : (g[a]).length = M := hg.2 _ (List.getElem_mem ha1)
      rw [hr] at hb1
      exact hb1
    have eg : cellAt g a b = g[a][b] := by
      unfold cellAt
      rw [List.getD_eq_getElem _ _ ha1, List.getD_eq_getElem _ _ hb1]
    have eh : cellAt h a b = h[a][b] := by
      unfold cellAt
      rw [List.getD_eq_getElem _ _ ha2, List.getD_eq_getElem _ _ hb2]
    rw [← eg, ← eh]
    exact he a haN b hbM

theorem writeFuture_eq (N M : Nat) (cur fut : Grid) (hs : shaped N M fut) :
    writeFuture N M cur fut = nextGrid N M cur := by
  refine grid_ext N M _ _ (shaped_writeFuture N M cur fut hs) ?_ ?_
  · exact shaped_mkGrid N M _
  · intro a ha b hb
    rw [cellAt_writeFuture N M cur fut hs a b ha hb]
    exact (cellAt_mkGrid N M _ a b ha hb).symm

theorem update_eq {N M : Nat} (s : State N M) (hf : shaped N M s.future_grid) :
    update s = { current_grid := nextGrid N M s.current_grid,
                 future_grid := nextGrid N M s.current_grid } := by
  unfold update
  rw [writeFuture_eq N M _ _ hf]

theorem addSizeT_eval (i : Nat) (d : Int) (hd : -1 ≤ d)
    (hw : (i : Int) + d < 2 ^ 64) :
    (addSizeT i d : Int) =
      if (i : Int) + d < 0 then 2 ^ 64 + ((i : Int) + d)
      else (i : Int) + d := by
  unfold addSizeT
  split_ifs with h
  · have he : (i : Int) + d = -1 := by omega
    rw [he]
    decide
  · have h0 : 0 ≤ (i : Int) + d := by omega
    have hm : ((sizeTMod : Nat) : Int) = 2 ^ 64 := by norm_num [sizeTMod]
    rw [hm, Int.emod_eq_of_lt h0 hw, Int.toNat_of_nonneg h0]

theorem test_eq (N M : Nat) (hN : N < 2 ^ 63) (hM : M < 2 ^ 63) (g : Grid)
    (i j : Nat) (hi : i < N) (hj : j < M) (d1 d2 : Int)
    (hd1 : -1 ≤ d1 ∧ d1 ≤ 1) (hd2 : -1 ≤ d2 ∧ d2 ≤ 1) :
    (decide (0 ≤ addSizeT i d1 ∧ 0 ≤ addSizeT j d2 ∧
        addSizeT i d1 < N ∧ addSizeT j d2 < M) &&
      cellAt g (addSizeT i d1) (addSizeT j d2))
    = (decide (0 ≤ (i : Int) + d1 ∧ (i : Int) + d1 < (N : Int) ∧
        0 ≤ (j : Int) + d2 ∧ (j : Int) + d2 < (M : Int)) &&
      cellAt g ((i : Int) + d1).toNat ((j : Int) + d2).toNat) := by
  have hx := addSizeT_eval i d1 hd1.1 (by omega)
  have hy := addSizeT_eval j d2 hd2.1 (by omega)
  by_cases hx0 : 0 ≤ (i : Int) + d1
  · rw [if_neg (by omega)] at hx
    have ex : addSizeT i d1 = ((i : Int) + d1).toNat := by omega
    by_cases hy0 : 0 ≤ (j : Int) + d2
    · rw [if_neg (by omega)] at hy
      have ey : addSizeT j d2 = ((j : Int) + d2).toNat := by omega
      rw [ex, ey]
      congr 1
      rw [decide_eq_decide]
      constructor
      · rintro ⟨-, -, ha, hb⟩
        refine ⟨hx0, by omega, hy0, by omega⟩
      · rintro ⟨-, ha, -, hb⟩
        refine ⟨Nat.zero_le _, Nat.zero_le _, by omega, by omega⟩
    · rw [if_pos (by omega)] at hy
      rw [decide_eq_false (by omega), decide_eq_false (by omega)]
      simp
  · rw [if_pos (by omega)] at hx
    rw [decide_eq_false (by omega), decide_eq_false (by omega)]
    simp

theorem nan_foldl_countP (N M : Nat) (g : Grid) (i j : Nat)
    (l : List (Int × Int)) (a : Nat) :
    l.foldl
      (fun alive_neighbours off =>
        let x := addSizeT i off.1
        let y := addSizeT j off.2
        if 0 ≤ x ∧ 0 ≤ y ∧ x < N ∧ y < M then
          (if cellAt g x y then alive_neighbours + 1 else alive_neighbours)
        else alive_neighbours) a
    = a + l.countP (fun off =>
        decide (0 ≤ addSizeT i off.1 ∧ 0 ≤ addSizeT j off.2 ∧
          addSizeT i off.1 < N ∧ addSizeT j off.2 < M) &&
        cellAt g (addSizeT i off.1) (addSizeT j off.2)) := by
  induction l generalizing a with
  | nil => simp
  | cons x l ih =>
    simp only [List.foldl_cons, List.countP_cons, ih]
    by_cases hq : cellAt g (addSizeT i x.1) (addSizeT j x.2)
    · simp only [hq, Bool.and_true, decide_eq_true_eq]
      split_ifs <;> omega
    · rw [Bool.not_eq_true] at hq
      simp only [hq, Bool.and_false, Bool.false_eq_true, if_false]
      split_ifs <;> omega

theorem count_eq (N M : Nat) (hN : N < 2 ^ 63) (hM : M < 2 ^ 63) (g : Grid)
    (i j : Nat) (hi : i < N) (hj : j < M) :
    numberOfAliveNeighbours N M g i j = liveNeighborCount N M g i j := by
  have h1 := nan_foldl_countP N M g i j NeighbourOffsets 0
  have h2 : numberOfAliveNeighbours N M g i j
      = NeighbourOffsets.countP (fun off =>
          decide (0 ≤ addSizeT i off.1 ∧ 0 ≤ addSizeT j off.2 ∧
            addSizeT i off.1 < N ∧ addSizeT j off.2 < M) &&
          cellAt g (addSizeT i off.1) (addSizeT j off.2)) := by
    simpa [numberOfAliveNeighbours] using h1
  rw [h2]
  unfold liveNeighborCount
  apply List.countP_congr
  intro off hoff
  have hd : (-1 ≤ off.1 ∧ off.1 ≤ 1) ∧ (-1 ≤ off.2 ∧ off.2 ≤ 1) := by
    fin_cases hoff <;> norm_num
  rw [test_eq N M hN hM g i j hi hj off.1 off.2 hd.1 hd.2]

theorem getD_map_range_ge {α : Type} (n : Nat) (h : Nat → α) (d : α)
    (i : Nat) (hi : n ≤ i) : ((List.range n).map h).getD i d = d := by
  rw [List.getD_eq_getElem?_getD, List.getElem?_eq_none (by simpa using hi)]
  rfl

theorem cellAt_zeroGrid (N M i j : Nat) : cellAt (zeroGrid N M) i j = false := by
  unfold zeroGrid mkGrid cellAt
  by_cases hi : i < N
  · rw [getD_map_range N _ _ i hi]
    by_cases hj : j < M
    · rw [getD_map_range M _ _ j hj]
    · rw [getD_map_range_ge M _ _ j (Nat.le_of_not_lt hj)]
  · rw [getD_map_range_ge N _ _ i (Nat.le_of_not_lt hi)]
    rfl

theorem numberOfAliveNeighbours_zeroGrid (N M i j : Nat) :
    numberOfAliveNeighbours N M (zeroGrid N M) i j = 0 := by
  unfold numberOfAliveNeighbours NeighbourOffsets
  simp [cellAt_zeroGrid]

theorem evolveCell_zeroGrid (N M i j : Nat) :
    evolveCell N M (zeroGrid N M) i j = false := by
  unfold evolveCell
  rw [cellAt_zeroGrid, numberOfAliveNeighbours_zeroGrid]
  simp

theorem nextGrid_zeroGrid (N M : Nat) :
    nextGrid N M (zeroGrid N M) = zeroGrid N M := by
  refine grid_ext N M _ _ (shaped_mkGrid N M _) (shaped_mkGrid N M _) ?_
  intro a ha b hb
  unfold nextGrid
  rw [cellAt_mkGrid N M _ a b ha hb, evolveCell_zeroGrid, cellAt_zeroGrid]

theorem rule_alive_bool (n : Nat) :
    (!(decide (n < 2) || decide (n > 3))) = decide (n = 2 ∨ n = 3) := by
  rw [Bool.eq_iff_iff]
  simp only [Bool.not_eq_true', Bool.or_eq_false_iff, decide_eq_false_iff_not,
    decide_eq_true_eq]
  omega

theorem rule_dead_bool (n : Nat) : (n == 3) = decide (n = 3) := by
  rw [Bool.eq_iff_iff]
  simp

/-- C1: for every grid state and every in-bounds cell position (i, j),
update computes the cell's next state by the standard Life rule: a live
cell with exactly 2 or 3 live in-bounds neighbours stays alive and
otherwise dies; a dead cell with exactly 3 live in-bounds neighbours
becomes alive and otherwise stays dead. -/
theorem update_cell_rule {N M : Nat} (hN : N < 2 ^ 63) (hM : M < 2 ^ 63)
    (s : State N M) (hf : shaped N M s.future_grid) (i j : Nat)
    (hi : i < N) (hj : j < M) :
    cellAt (getGrid (update s)) i j =
      (if cellAt (getGrid s) i j then
        decide (liveNeighborCount N M (getGrid s) i j = 2 ∨
          liveNeighborCount N M (getGrid s) i j = 3)
      else decide (liveNeighborCount N M (getGrid s) i j = 3)) := by
  rw [update_eq s hf]
  show cellAt (nextGrid N M s.current_grid) i j = _
  unfold nextGrid
  rw [cellAt_mkGrid N M _ i j hi hj]
  unfold evolveCell getGrid
  rw [count_eq N M hN hM s.current_grid i j hi hj]
  by_cases hc : cellAt s.current_grid i j
  · rw [if_pos hc, if_pos hc, rule_alive_bool]
  · rw [if_neg hc, if_neg hc, rule_dead_bool]

/-- Witness for C1 at a concrete instance: a 3x3 grid holding a horizontal
blinker, evaluated at its centre cell. -/
theorem update_cell_rule_witness :
    (3 < 2 ^ 63) ∧ shaped 3 3 (zeroGrid 3 3) ∧ (1 < 3) ∧
    (cellAt (getGrid (update
        { current_grid := blinkerH 3 3 1 0, future_grid := zeroGrid 3 3 :
          State 3 3 })) 1 1 =
      (if cellAt (getGrid
          { current_grid := blinkerH 3 3 1 0, future_grid := zeroGrid 3 3 :
            State 3 3 }) 1 1 then
        decide (liveNeighborCount 3 3 (getGrid
          { current_grid := blinkerH 3 3 1 0, future_grid := zeroGrid 3 3 :
            State 3 3 }) 1 1 = 2 ∨
          liveNeighborCount 3 3 (getGrid
          { current_grid := blinkerH 3 3 1 0, future_grid := zeroGrid 3 3 :
            State 3 3 }) 1 1 = 3)
      else decide (liveNeighborCount 3 3 (getGrid
          { current_grid := blinkerH 3 3 1 0, future_grid := zeroGrid 3 3 :
            State 3 3 }) 1 1 = 3))) :=
  ⟨by decide, by decide, by decide,
    update_cell_rule (by decide) (by decide)
      { current_grid := blinkerH 3 3 1 0, future_grid := zeroGrid 3 3 }
      (by decide) 1 1 (by decide) (by decide)⟩

/-- C4: the live-neighbour count of the source agrees with the spec-side
count over the 8 Moore offsets restricted to [0, N) x [0, M): out-of-grid
positions are never counted (the size_t wraparound makes the bounds check
exact, no toroidal wrap), and at (0, 0) on a grid with N, M at least 2 the
count is at most 3. -/
theorem neighbour_count_no_wraparound (N M : Nat) (hN : N < 2 ^ 63)
    (hM : M < 2 ^ 63) (g : Grid) (i j : Nat) (hi : i < N) (hj : j < M) :
    numberOfAliveNeighbours N M g i j = liveNeighborCount N M g i j ∧
    (2 ≤ N → 2 ≤ M → numberOfAliveNeighbours N M g 0 0 ≤ 3) := by
  refine ⟨count_eq N M hN hM g i j hi hj, ?_⟩
  intro h2N h2M
  rw [count_eq N M hN hM g 0 0 (by omega) (by omega)]
  unfold liveNeighborCount NeighbourOffsets
  simp only [List.countP_cons, List.countP_nil]
  norm_num
  split_ifs <;> omega

/-- Witness for C4 at a concrete instance: the all-true 2x2 grid at
cell (0, 0). -/
theorem neighbour_count_no_wraparound_witness :
    (2 < 2 ^ 63) ∧ (0 < 2) ∧
    (numberOfAliveNeighbours 2 2 (mkGrid 2 2 fun _ _ => true) 0 0 =
        liveNeighborCount 2 2 (mkGrid 2 2 fun _ _ => true) 0 0 ∧
      (2 ≤ 2 → 2 ≤ 2 →
        numberOfAliveNeighbours 2 2 (mkGrid 2 2 fun _ _ => true) 0 0 ≤ 3)) :=
  ⟨by decide, by decide,
    neighbour_count_no_wraparound 2 2 (by decide) (by decide)
      (mkGrid 2 2 fun _ _ => true) 0 0 (by decide) (by decide)⟩

/-- C5: after a completed update, the grid observable through getGrid is
exactly the fully-computed next generation of the pre-call grid: every
cell is evolveCell applied to the grid as it was before the call, so the
intermediate writes of the update loop never feed back into the same
update and no partially-updated generation is observable. -/
theorem update_is_full_next_generation {N M : Nat} (s : State N M)
    (hf : shaped N M s.future_grid) :
    getGrid (update s) =
      mkGrid N M fun i j => evolveCell N M (getGrid s) i j := by
  rw [update_eq s hf]
  rfl

/-- Witness for C5 at a concrete instance: a 3x3 grid holding a horizontal
blinker. -/
theorem update_is_full_next_generation_witness :
    shaped 3 3 (zeroGrid 3 3) ∧
    (getGrid (update
        { current_grid := blinkerH 3 3 1 0, future_grid := zeroGrid 3 3 :
          State 3 3 }) =
      mkGrid 3 3 fun i j => evolveCell 3 3 (getGrid
        { current_grid := blinkerH 3 3 1 0, future_grid := zeroGrid 3 3 :
          State 3 3 }) i j) :=
  ⟨by decide,
    update_is_full_next_generation
      { current_grid := blinkerH 3 3 1 0, future_grid := zeroGrid 3 3 }
      (by decide)⟩

/-- C6: update is deterministic: two instances whose current grids hold
the same state S (whatever residue their scratch buffers hold) have
identical current grids after one update each. -/
theorem update_deterministic {N M : Nat} (s t : State N M)
    (hcur : getGrid s = getGrid t) (hs : shaped N M s.future_grid)
    (ht : shaped N M t.future_grid) :
    getGrid (update s) = getGrid (update t) := by
  rw [update_eq s hs, update_eq t ht]
  show nextGrid N M s.current_grid = nextGrid N M t.current_grid
  rw [show s.current_grid = t.current_grid from hcur]

/-- Witness for C6 at a concrete instance: two 2x2 states with the same
current grid and different scratch buffers. -/
theorem update_deterministic_witness :
    (getGrid ({ current_grid := zeroGrid 2 2, future_grid := zeroGrid 2 2 } :
        State 2 2) =
      getGrid ({ current_grid := zeroGrid 2 2,
                 future_grid := mkGrid 2 2 fun _ _ => true } : State 2 2)) ∧
    shaped 2 2 (zeroGrid 2 2) ∧
    shaped 2 2 (mkGrid 2 2 fun _ _ => true) ∧
    (getGrid (update ({ current_grid := zeroGrid 2 2,
                        future_grid := zeroGrid 2 2 } : State 2 2)) =
      getGrid (update ({ current_grid := zeroGrid 2 2,
                         future_grid := mkGrid 2 2 fun _ _ => true } :
          State 2 2))) :=
  ⟨by decide, by decide, by decide,
    update_deterministic
      { current_grid := zeroGrid 2 2, future_grid := zeroGrid 2 2 }
      { current_grid := zeroGrid 2 2, future_grid := mkGrid 2 2 fun _ _ => true }
      (by decide) (by decide) (by decide)⟩

/-- C7: the all-dead grid is a fixed point of update: starting from a
default-constructed (all-dead) GameOfLife, the current grid is still
all-dead after any number n of update calls. -/
theorem all_dead_stable (N M n : Nat) :
    getGrid (update^[n] (init N M)) = zeroGrid N M := by
  have hshaped : shaped N M (init N M).future_grid :=
    shaped_mkGrid N M fun _ _ => false
  have hfix : update (init N M) = init N M := by
    rw [update_eq (init N M) hshaped]
    have hz : (init N M).current_grid = zeroGrid N M := rfl
    rw [hz, nextGrid_zeroGrid]
    rfl
  rw [Function.iterate_fixed hfix n]
  rfl

set_option maxRecDepth 40000 in
/-- C9: seeding main()'s glider aggregate at the origin of a 10x10 grid
and calling update four times yields exactly the glider shape translated
by (+1, +1). -/
theorem glider_translates :
    getGrid (update^[4] (setGrid (init 10 10) glider_layout)) =
      mkGrid 10 10 fun i j =>
        decide (1 ≤ i) && decide (1 ≤ j) &&
          cellAt glider_layout (i - 1) (j - 1) := by
  decide

/-- C2 (code evaluated at the failing input): setGrid has no bounds check
and no OutOfBounds error: handed the contiguous storage of an 11x11
all-true pattern, the copy simply overwrites the 10x10 current grid, so
the grid is not left unmodified and no error is reported. -/
theorem setGrid_oversized_pattern_modifies :
    (setGridRaw (init 10 10) (List.replicate 121 true)).current_grid ≠
      (init 10 10).current_grid := by
  decide

/-- C3 (code evaluated at the failing input): handed the 12-element
contiguous storage of a 4x3 pattern, setGrid still copies N*M = 100
booleans, reading 88 values past the pattern (undefined behaviour in the
source; one concrete residue of all-false memory is modelled here), so
cell (9, 9), far outside the pattern's extent, is overwritten from true to
false instead of keeping its prior value. -/
theorem setGrid_smaller_pattern_clobbers :
    cellAt (mkGrid 10 10 fun _ _ => true) 9 9 = true ∧
    cellAt (setGridRaw
        { current_grid := mkGrid 10 10 fun _ _ => true,
          future_grid := zeroGrid 10 10 : State 10 10 }
        ([false, true, false, false, false, true, true, true, true,
          false, false, false] ++ List.replicate 88 false)).current_grid
      9 9 = false := by
  decide

/-- C10: setGrid writes only the current grid: the scratch future buffer
is untouched, and the result of a subsequent update depends only on the
grid that setGrid wrote, not on any residue in the scratch buffer. -/
theorem setGrid_leaves_scratch_alone {N M : Nat} (s t : State N M)
    (g : Grid) (hs : shaped N M s.future_grid)
    (ht : shaped N M t.future_grid) :
    (setGrid s g).future_grid = s.future_grid ∧
    update (setGrid s g) = update (setGrid t g) := by
  refine ⟨rfl, ?_⟩
  rw [update_eq (setGrid s g) hs, update_eq (setGrid t g) ht]
  rfl

/-- Witness for C10 at a concrete instance: seeding a 2x2 grid over two
states with different scratch residues. -/
theorem setGrid_leaves_scratch_alone_witness :
    shaped 2 2 (zeroGrid 2 2) ∧
    shaped 2 2 (mkGrid 2 2 fun _ _ => true) ∧
    ((setGrid ({ current_grid := zeroGrid 2 2, future_grid := zeroGrid 2 2 } :
        State 2 2) (mkGrid 2 2 fun i j => decide (i = j))).future_grid =
      zeroGrid 2 2 ∧
    update (setGrid ({ current_grid := zeroGrid 2 2,
                       future_grid := zeroGrid 2 2 } : State 2 2)
        (mkGrid 2 2 fun i j => decide (i = j))) =
      update (setGrid ({ current_grid := mkGrid 2 2 fun _ _ => true,
                         future_grid := mkGrid 2 2 fun _ _ => true } :
          State 2 2)
        (mkGrid 2 2 fun i j => decide (i = j)))) :=
  ⟨by decide, by decide,
    setGrid_leaves_scratch_alone
      { current_grid := zeroGrid 2 2, future_grid := zeroGrid 2 2 }
      { current_grid := mkGrid 2 2 fun _ _ => true,
        future_grid := mkGrid 2 2 fun _ _ => true }
      (mkGrid 2 2 fun i j => decide (i = j)) (by decide) (by decide)⟩

theorem mkGrid_congr (N M : Nat) (f g : Nat → Nat → Bool)
    (h : ∀ i, i < N → ∀ j, j < M → f i j = g i j) :
    mkGrid N M f = mkGrid N M g := by
  refine grid_ext N M _ _ (shaped_mkGrid N M f) (shaped_mkGrid N M g) ?_
  intro a ha b hb
  rw [cellAt_mkGrid N M f a b ha hb, cellAt_mkGrid N M g a b ha hb]
  exact h a ha b hb

theorem liveNeighborCount_mkGrid (N M : Nat) (P : Nat → Nat → Bool)
    (i j : Nat) :
    liveNeighborCount N M (mkGrid N M P) i j =
      NeighbourOffsets.countP (fun off =>
        decide (0 ≤ (i : Int) + off.1 ∧ (i : Int) + off.1 < (N : Int) ∧
          0 ≤ (j : Int) + off.2 ∧ (j : Int) + off.2 < (M : Int)) &&
        P ((i : Int) + off.1).toNat ((j : Int) + off.2).toNat) := by
  unfold liveNeighborCount
  apply List.countP_congr
  intro off hoff
  by_cases hc : (0 ≤ (i : Int) + off.1 ∧ (i : Int) + off.1 < (N : Int) ∧
      0 ≤ (j : Int) + off.2 ∧ (j : Int) + off.2 < (M : Int))
  · have hx : ((i : Int) + off.1).toNat < N := by omega
    have hy : ((j : Int) + off.2).toNat < M := by omega
    simp [hc, cellAt_mkGrid N M P _ _ hx hy]
  · simp [hc]

theorem toNat_cast_add_one (i : Nat) : ((i : Int) + 1).toNat = i + 1 := by
  omega

theorem toNat_cast_add_zero (i : Nat) : ((i : Int) + 0).toNat = i := by
  omega

theorem toNat_cast_add_neg_one (i : Nat) : ((i : Int) + -1).toNat = i - 1 := by
  omega

theorem zero_le_cast_add_one (i : Nat) : 0 ≤ (i : Int) + 1 := by omega

theorem zero_le_cast_add_zero (i : Nat) : 0 ≤ (i : Int) + 0 := by omega

theorem zero_le_cast_add_neg_one (i : Nat) : (0 ≤ (i : Int) + -1) ↔ 1 ≤ i := by
  omega

theorem cast_add_one_lt (i K : Nat) :
    ((i : Int) + 1 < (K : Int)) ↔ i + 1 < K := by
  omega

theorem cast_add_zero_lt (i K : Nat) : ((i : Int) + 0 < (K : Int)) ↔ i < K := by
  omega

theorem cast_add_neg_one_lt (i K : Nat) :
    ((i : Int) + -1 < (K : Int)) ↔ i < K + 1 := by
  omega

theorem ite_bool_eq_true (c : Prop) [Decidable c] (a b : Bool) :
    ((if c then a else b) = true) = (if c then a = true else b = true) := by
  split_ifs <;> rfl

set_option maxHeartbeats 1000000 in
theorem blinkerH_step (N M r c : Nat) (hN : N < 2 ^ 63) (hM : M < 2 ^ 63)
    (hr1 : 1 ≤ r) (hr2 : r + 2 ≤ N) (hc1 : 1 ≤ c) (hc2 : c + 4 ≤ M)
    (i j : Nat) (hi : i < N) (hj : j < M) :
    evolveCell N M (blinkerH N M r c) i j =
      decide (j = c + 1 ∧ (i + 1 = r ∨ i = r ∨ i = r + 1)) := by
  unfold evolveCell blinkerH
  rw [cellAt_mkGrid N M _ i j hi hj]
  rw [count_eq N M hN hM _ i j hi hj, liveNeighborCount_mkGrid]
  unfold NeighbourOffsets
  simp only [List.countP_cons, List.countP_nil]
  rw [rule_alive_bool, rule_dead_bool, Bool.eq_iff_iff]
  simp only [ite_bool_eq_true, Bool.and_eq_true, decide_eq_true_eq,
    toNat_cast_add_one, toNat_cast_add_zero, toNat_cast_add_neg_one,
    zero_le_cast_add_one, zero_le_cast_add_zero, zero_le_cast_add_neg_one,
    cast_add_one_lt, cast_add_zero_lt, cast_add_neg_one_lt, true_and]
  have e1 : ((i + 1 < N ∧ j + 1 < M) ∧ i + 1 = r ∧
      (j + 1 = c ∨ j + 1 = c + 1 ∨ j + 1 = c + 2)) ↔
      (i + 1 = r ∧ (j + 1 = c ∨ j + 1 = c + 1 ∨ j + 1 = c + 2)) := by omega
  have e2 : ((i + 1 < N ∧ j < M) ∧ i + 1 = r ∧
      (j = c ∨ j = c + 1 ∨ j = c + 2)) ↔
      (i + 1 = r ∧ (j = c ∨ j = c + 1 ∨ j = c + 2)) := by omega
  have e3 : ((i + 1 < N ∧ 1 ≤ j ∧ j < M + 1) ∧ i + 1 = r ∧
      (j - 1 = c ∨ j - 1 = c + 1 ∨ j - 1 = c + 2)) ↔
      (i + 1 = r ∧ (j - 1 = c ∨ j - 1 = c + 1 ∨ j - 1 = c + 2)) := by omega
  have e4 : ((i < N ∧ j + 1 < M) ∧ i = r ∧
      (j + 1 = c ∨ j + 1 = c + 1 ∨ j + 1 = c + 2)) ↔
      (i = r ∧ (j + 1 = c ∨ j + 1 = c + 1 ∨ j + 1 = c + 2)) := by omega
  have e5 : ((i < N ∧ 1 ≤ j ∧ j < M + 1) ∧ i = r ∧
      (j - 1 = c ∨ j - 1 = c + 1 ∨ j - 1 = c + 2)) ↔
      (i = r ∧ (j - 1 = c ∨ j - 1 = c + 1 ∨ j - 1 = c + 2)) := by omega
  have e6 : ((1 ≤ i ∧ i < N + 1 ∧ j + 1 < M) ∧ i - 1 = r ∧
      (j + 1 = c ∨ j + 1 = c + 1 ∨ j + 1 = c + 2)) ↔
      (i - 1 = r ∧ (j + 1 = c ∨ j + 1 = c + 1 ∨ j + 1 = c + 2)) := by omega
  have e7 : ((1 ≤ i ∧ i < N + 1 ∧ j < M) ∧ i - 1 = r ∧
      (j = c ∨ j = c + 1 ∨ j = c + 2)) ↔
      (i - 1 = r ∧ (j = c ∨ j = c + 1 ∨ j = c + 2)) := by omega
  have e8 : ((1 ≤ i ∧ i < N + 1 ∧ 1 ≤ j ∧ j < M + 1) ∧ i - 1 = r ∧
      (j - 1 = c ∨ j - 1 = c + 1 ∨ j - 1 = c + 2)) ↔
      (i - 1 = r ∧ (j - 1 = c ∨ j - 1 = c + 1 ∨ j - 1 = c + 2)) := by omega
  simp only [e1, e2, e3, e4, e5, e6, e7, e8]
  by_cases hA : i + 1 = r
  · have hB : ¬ i = r := by omega
    have hC : ¬ i - 1 = r := by omega
    simp only [iff_true_intro hA, iff_false_intro hB, iff_false_intro hC,
      true_and, false_and, if_false, if_true, true_or, false_or, or_true,
      or_false, and_true]
    split_ifs <;> omega
  · by_cases hD : i = r
    · have hC : ¬ i - 1 = r := by omega
      simp only [iff_true_intro hD, iff_false_intro hA, iff_false_intro hC,
        true_and, false_and, if_false, if_true, true_or, false_or, or_true,
        or_false, and_true]
      split_ifs <;> omega
    · by_cases hE : i - 1 = r
      · simp only [iff_true_intro hE, iff_false_intro hA, iff_false_intro hD,
          true_and, false_and, if_false, if_true, true_or, false_or, or_true,
          or_false, and_true]
        split_ifs <;> omega
      · simp only [iff_false_intro hA, iff_false_intro hD, iff_false_intro hE,
          false_and, if_false, false_or, or_false, and_false, iff_false]
        omega

set_option maxHeartbeats 1000000 in
theorem blinkerV_step (N M r c : Nat) (hN : N < 2 ^ 63) (hM : M < 2 ^ 63)
    (hr1 : 1 ≤ r) (hr2 : r + 2 ≤ N) (hc1 : 1 ≤ c) (hc2 : c + 4 ≤ M)
    (i j : Nat) (hi : i < N) (hj : j < M) :
    evolveCell N M (blinkerV N M r c) i j =
      decide (i = r ∧ (j = c ∨ j = c + 1 ∨ j = c + 2)) := by
  unfold evolveCell blinkerV
  rw [cellAt_mkGrid N M _ i j hi hj]
  rw [count_eq N M hN hM _ i j hi hj, liveNeighborCount_mkGrid]
  unfold NeighbourOffsets
  simp only [List.countP_cons, List.countP_nil]
  rw [rule_alive_bool, rule_dead_bool, Bool.eq_iff_iff]
  simp only [ite_bool_eq_true, Bool.and_eq_true, decide_eq_true_eq,
    toNat_cast_add_one, toNat_cast_add_zero, toNat_cast_add_neg_one,
    zero_le_cast_add_one, zero_le_cast_add_zero, zero_le_cast_add_neg_one,
    cast_add_one_lt, cast_add_zero_lt, cast_add_neg_one_lt, true_and]
  split_ifs <;> omega

/-- C8: blinker oscillation with period 2: on a grid of at least 5x5,
starting from exactly three live cells at row r, columns c, c+1, c+2, with
the run not touching any boundary, one update yields exactly the three
live cells at column c+1, rows r-1, r, r+1, and a second update restores
the original horizontal run exactly. -/
theorem blinker_oscillates {N M r c : Nat} (hN5 : 5 ≤ N) (hM5 : 5 ≤ M)
    (hN : N < 2 ^ 63) (hM : M < 2 ^ 63) (hr1 : 1 ≤ r) (hr2 : r + 2 ≤ N)
    (hc1 : 1 ≤ c) (hc2 : c + 4 ≤ M) (s : State N M)
    (hcur : getGrid s = blinkerH N M r c) (hf : shaped N M s.future_grid) :
    getGrid (update s) = blinkerV N M r c ∧
    getGrid (update (update s)) = blinkerH N M r c := by
  have h1 : getGrid (update s) = blinkerV N M r c := by
    rw [update_eq s hf]
    show nextGrid N M s.current_grid = blinkerV N M r c
    rw [show s.current_grid = blinkerH N M r c from hcur]
    unfold nextGrid blinkerV
    apply mkGrid_congr
    intro a ha b hb
    exact blinkerH_step N M r c hN hM hr1 hr2 hc1 hc2 a b ha hb
  refine ⟨h1, ?_⟩
  have hf1 : shaped N M (update s).future_grid := by
    rw [update_eq s hf]
    exact shaped_mkGrid N M _
  rw [update_eq (update s) hf1]
  show nextGrid N M (update s).current_grid = blinkerH N M r c
  rw [show (update s).current_grid = blinkerV N M r c from h1]
  unfold nextGrid blinkerH
  apply mkGrid_congr
  intro a ha b hb
  exact blinkerV_step N M r c hN hM hr1 hr2 hc1 hc2 a b ha hb

/-- Witness for C8 at a concrete instance: a 5x5 grid with the horizontal
blinker at row 2, columns 1, 2, 3. -/
theorem blinker_oscillates_witness :
    (5 ≤ 5) ∧ (5 < 2 ^ 63) ∧ (1 ≤ 2) ∧ (2 + 2 ≤ 5) ∧ (1 ≤ 1) ∧
    (1 + 4 ≤ 5) ∧
    (getGrid ({ current_grid := blinkerH 5 5 2 1,
                future_grid := zeroGrid 5 5 } : State 5 5) =
      blinkerH 5 5 2 1) ∧
    shaped 5 5 (zeroGrid 5 5) ∧
    (getGrid (update ({ current_grid := blinkerH 5 5 2 1,
                        future_grid := zeroGrid 5 5 } : State 5 5)) =
        blinkerV 5 5 2 1 ∧
      getGrid (update (update ({ current_grid := blinkerH 5 5 2 1,
                                 future_grid := zeroGrid 5 5 } :
          State 5 5))) = blinkerH 5 5 2 1) :=
  ⟨by decide, by decide, by decide, by decide, by decide, by decide,
    by decide, by decide,
    blinker_oscillates (by decide) (by decide) (by decide) (by decide)
      (by decide) (by decide) (by decide) (by decide)
      { current_grid := blinkerH 5 5 2 1, future_grid := zeroGrid 5 5 }
      (by decide) (by decide)⟩

end GameOfLife
